import Mathlib

/-!
Verification of the Resilience & Dynamic Configuration subsystem of the
rental-platform repository: the circuit breaker, the retry wrapper, their
composition (`resilient`), the cache layer, and the feature-flag service.

The Lean definitions below are a shallow embedding of
`backend/app/core/circuit_breaker.py`, `backend/app/core/cache.py` and
`backend/app/services/feature_flag_service.py`:
- Python wall-clock times (`time.time()`) are modelled as rational numbers
  passed explicitly (`now`) to every operation that reads the clock;
- the integer counters of the breaker are natural numbers (they are
  initialised to 0 and only ever incremented or reset to 0);
- raising an exception is modelled with `Except`; the asynchronous wrappers
  are modelled as pure state-passing functions;
- `print` logging is dropped (it has no effect on the data).
-/

/-- The three states of `CircuitState` in `circuit_breaker.py`. -/
inductive CircuitState where
  | CLOSED
  | OPEN
  | HALF_OPEN
deriving DecidableEq, Repr

/-- The `CircuitBreaker` dataclass: configuration (`failure_threshold`,
`recovery_timeout`, `half_open_max_calls`) plus mutable state
(`state`, `failure_count`, `success_count`, `last_failure_time`,
`half_open_calls`).  The `name` field is irrelevant to the dynamics and
is omitted. -/
structure CircuitBreaker where
  failure_threshold : Nat
  recovery_timeout : ℚ
  half_open_max_calls : Nat
  state : CircuitState
  failure_count : Nat
  success_count : Nat
  last_failure_time : ℚ
  half_open_calls : Nat
deriving DecidableEq, Repr

/-- `CircuitBreaker._transition_to_half_open`: set state to HALF_OPEN and
reset `half_open_calls` to 0. -/
def CircuitBreaker.transition_to_half_open (cb : CircuitBreaker) : CircuitBreaker :=
  { cb with state := CircuitState.HALF_OPEN, half_open_calls := 0 }

/-- `CircuitBreaker._should_allow_request`, with `time.time()` passed as
`now`.  Returns the boolean decision together with the (possibly mutated)
breaker: the only mutation is the OPEN → HALF_OPEN transition. -/
def CircuitBreaker.should_allow_request (cb : CircuitBreaker) (now : ℚ) :
    Bool × CircuitBreaker :=
  match cb.state with
  | CircuitState.CLOSED => (true, cb)
  | CircuitState.OPEN =>
      if now - cb.last_failure_time ≥ cb.recovery_timeout then
        (true, cb.transition_to_half_open)
      else
        (false, cb)
  | CircuitState.HALF_OPEN =>
      if cb.half_open_calls < cb.half_open_max_calls then (true, cb)
      else (false, cb)

/-- `CircuitBreaker._record_success`: in HALF_OPEN increment both
`success_count` and `half_open_calls`, and close the circuit (resetting
both counters) once `success_count >= half_open_max_calls`; in any other
state just reset `failure_count` to 0. -/
def CircuitBreaker.record_success (cb : CircuitBreaker) : CircuitBreaker :=
  if cb.state = CircuitState.HALF_OPEN then
    let cb1 := { cb with success_count := cb.success_count + 1,
                         half_open_calls := cb.half_open_calls + 1 }
    if cb1.success_count ≥ cb1.half_open_max_calls then
      { cb1 with state := CircuitState.CLOSED, failure_count := 0,
                 success_count := 0 }
    else
      cb1
  else
    { cb with failure_count := 0 }

/-- `CircuitBreaker._record_failure`, with `time.time()` passed as `now`:
increment `failure_count` and stamp `last_failure_time`; then in HALF_OPEN
reopen (resetting `success_count`), and in CLOSED open once
`failure_count >= failure_threshold`. -/
def CircuitBreaker.record_failure (cb : CircuitBreaker) (now : ℚ) : CircuitBreaker :=
  let cb1 := { cb with failure_count := cb.failure_count + 1,
                       last_failure_time := now }
  if cb1.state = CircuitState.HALF_OPEN then
    { cb1 with state := CircuitState.OPEN, success_count := 0 }
  else if cb1.state = CircuitState.CLOSED then
    if cb1.failure_count ≥ cb1.failure_threshold then
      { cb1 with state := CircuitState.OPEN }
    else
      cb1
  else
    cb1

/-- A sequence of consecutive recorded failures at the given times
(no intervening success), folded left to right. -/
def record_failures (cb : CircuitBreaker) (ts : List ℚ) : CircuitBreaker :=
  ts.foldl CircuitBreaker.record_failure cb

/-- `n` consecutive recorded successes (no intervening failure). -/
def record_successes (cb : CircuitBreaker) : Nat → CircuitBreaker
  | 0 => cb
  | n + 1 => record_successes cb.record_success n

/-- A fresh breaker as built by `get_circuit_breaker` on first reference:
CLOSED, all counters 0. -/
def mkCircuitBreaker (failure_threshold : Nat) (recovery_timeout : ℚ)
    (half_open_max_calls : Nat) : CircuitBreaker :=
  { failure_threshold := failure_threshold,
    recovery_timeout := recovery_timeout,
    half_open_max_calls := half_open_max_calls,
    state := CircuitState.CLOSED,
    failure_count := 0,
    success_count := 0,
    last_failure_time := 0,
    half_open_calls := 0 }

/-- The loop body of `with_retry`'s `wrapper`.  The wrapped operation is
modelled as a function `op : Nat → Except E A` giving the outcome of its
`attempt`-th invocation (0-indexed).  The result carries the final outcome
(`Except.error lastE` models `raise last_exception`, where
`lastE = none` is the degenerate `raise None` of `max_attempts = 0`),
the number of invocations of `op`, and the list of sleep durations, in
order.  `fuel` is `max_attempts - attempt`, the number of loop iterations
left; the sleep condition `attempt < max_attempts - 1` is kept verbatim
(natural subtraction agrees with Python here since the loop runs only for
`attempt < max_attempts`). -/
def with_retry_go {E A : Type} (op : Nat → Except E A) (max_attempts : Nat)
    (max_delay exponential_base : ℚ) :
    Nat → Nat → ℚ → Option E → Except (Option E) A × Nat × List ℚ
  | _, 0, _, lastE => (Except.error lastE, 0, [])
  | attempt, fuel + 1, delay, _ =>
      match op attempt with
      | Except.ok a => (Except.ok a, 1, [])
      | Except.error e =>
          if attempt < max_attempts - 1 then
            let rest := with_retry_go op max_attempts max_delay exponential_base
              (attempt + 1) fuel (delay * exponential_base) (some e)
            (rest.1, rest.2.1 + 1, min delay max_delay :: rest.2.2)
          else
            let rest := with_retry_go op max_attempts max_delay exponential_base
              (attempt + 1) fuel delay (some e)
            (rest.1, rest.2.1 + 1, rest.2.2)

/-- `with_retry(max_attempts, initial_delay, max_delay, exponential_base)`
applied to an operation: run the retry loop from attempt 0 with
`delay = initial_delay` and `last_exception = None`. -/
def with_retry {E A : Type} (op : Nat → Except E A) (max_attempts : Nat)
    (initial_delay max_delay exponential_base : ℚ) :
    Except (Option E) A × Nat × List ℚ :=
  with_retry_go op max_attempts max_delay exponential_base 0 max_attempts
    initial_delay none

/-- Outcome of one invocation of a `circuit_breaker`-wrapped call:
the inner result returned, the inner error re-raised after recording the
failure, the fallback's value, or `CircuitBreakerError`. -/
inductive CBOutcome (E A : Type) where
  | ok (a : A)
  | errored (e : E)
  | fallbackUsed (a : A)
  | circuitOpenError
deriving DecidableEq, Repr

/-- One invocation of the `wrapper` built by the `circuit_breaker`
decorator, given the outcome `inner` of the wrapped function (which is
only consulted when admission succeeds): one admission check, then — if
admitted — the inner call followed by exactly one outcome record; if
denied, the fallback (when supplied) or `CircuitBreakerError`, with no
record. -/
def circuit_breaker_call {E A : Type} (cb : CircuitBreaker) (now : ℚ)
    (fallback : Option A) (inner : Except E A) : CBOutcome E A × CircuitBreaker :=
  let p := cb.should_allow_request now
  if p.1 then
    match inner with
    | Except.ok a => (CBOutcome.ok a, p.2.record_success)
    | Except.error e => (CBOutcome.errored e, p.2.record_failure now)
  else
    match fallback with
    | some a => (CBOutcome.fallbackUsed a, p.2)
    | none => (CBOutcome.circuitOpenError, p.2)

/-- One invocation of a `resilient(name, max_attempts, failure_threshold,
fallback)`-wrapped operation: the decorator composition
`circuit_breaker(with_retry(max_attempts)(func))`.  `with_retry` is
applied with its default delays (`initial_delay=1.0`, `max_delay=10.0`,
`exponential_base=2.0`), exactly as `resilient` builds it.  Returns the
outcome, the breaker after the call, the number of invocations of the
inner operation, and the sleeps performed. -/
def resilient_call {E A : Type} (cb : CircuitBreaker) (now : ℚ)
    (fallback : Option A) (op : Nat → Except E A) (max_attempts : Nat) :
    CBOutcome (Option E) A × CircuitBreaker × Nat × List ℚ :=
  let p := cb.should_allow_request now
  if p.1 then
    let r := with_retry op max_attempts 1 10 2
    match r.1 with
    | Except.ok a => (CBOutcome.ok a, p.2.record_success, r.2.1, r.2.2)
    | Except.error e => (CBOutcome.errored e, p.2.record_failure now, r.2.1, r.2.2)
  else
    match fallback with
    | some a => (CBOutcome.fallbackUsed a, p.2, 0, [])
    | none => (CBOutcome.circuitOpenError, p.2, 0, [])

/-- Redis-style glob matching used by `redis.keys(pattern)` in
`CacheLayer.invalidate_pattern`: `*` matches any (possibly empty)
sequence, `?` matches one character, anything else matches literally
(character classes are not used by this repository's patterns and are
not modelled). -/
def globMatch : List Char → List Char → Bool
  | [], [] => true
  | '*' :: ps, [] => globMatch ps []
  | '*' :: ps, c :: cs => globMatch ps (c :: cs) || globMatch ('*' :: ps) cs
  | '?' :: ps, _ :: cs => globMatch ps cs
  | p :: ps, c :: cs => decide (p = c) && globMatch ps cs
  | _ :: _, [] => false
  | [], _ :: _ => false
termination_by ps cs => (ps.length, cs.length)

/-- Association-list lookup for the modelled Redis store (key, value,
remaining TTL).  Redis keys are unique; `CacheLayer.set` maintains this. -/
def lookupKV {V : Type} (key : String) :
    List (String × V × Nat) → Option (V × Nat)
  | [] => none
  | (k, v, t) :: rest => if k = key then some (v, t) else lookupKV key rest

/-- Remove every binding of `key` from the modelled Redis store. -/
def eraseKV {V : Type} (key : String) (l : List (String × V × Nat)) :
    List (String × V × Nat) :=
  l.filter (fun e => decide (e.1 ≠ key))

/-- The `CacheLayer` client.  `redis_client = none` models the
"disconnected" mode (`self.redis_client is None`, logged once at startup);
`some st` models a live connection whose backend holds the store `st`,
a map from key to serialized value and TTL.  Values are kept at a generic
type `V` standing for the JSON-serializable payload: `json.loads`
inverts `json.dumps` on such payloads, and a serialized value is a
non-empty string, so the `if value:` truthiness test in `get` always
passes on a present key. -/
structure CacheLayer (V : Type) where
  redis_client : Option (List (String × V × Nat))
deriving DecidableEq, Repr

/-- `CacheLayer.get`: `None` when disconnected; otherwise return the
stored value, with any backend exception (`fail = true`) caught and
converted to `None`. -/
def CacheLayer.get {V : Type} (c : CacheLayer V) (fail : Bool) (key : String) :
    Option V :=
  match c.redis_client with
  | none => none
  | some st =>
      if fail then none
      else
        match lookupKV key st with
        | some (v, _) => some v
        | none => none

/-- `CacheLayer.set`: `False` when disconnected; otherwise `setex` the
value under its TTL and return `True`, with any backend exception caught
and converted to `False` (the failed write leaves the backend unchanged). -/
def CacheLayer.set {V : Type} (c : CacheLayer V) (fail : Bool) (key : String)
    (value : V) (ttl : Nat) : Bool × CacheLayer V :=
  match c.redis_client with
  | none => (false, c)
  | some st =>
      if fail then (false, c)
      else (true, ⟨some ((key, value, ttl) :: eraseKV key st)⟩)

/-- `CacheLayer.delete`: `False` when disconnected; otherwise delete the
key (returning `True` whether or not it existed), with any backend
exception caught and converted to `False`. -/
def CacheLayer.delete {V : Type} (c : CacheLayer V) (fail : Bool)
    (key : String) : Bool × CacheLayer V :=
  match c.redis_client with
  | none => (false, c)
  | some st =>
      if fail then (false, c)
      else (true, ⟨some (eraseKV key st)⟩)

/-- `CacheLayer.invalidate_pattern`: 0 when disconnected; otherwise list
the keys matching the glob pattern and delete them, returning how many
were deleted (0 when none matched), with any backend exception caught and
converted to 0. -/
def CacheLayer.invalidate_pattern {V : Type} (c : CacheLayer V) (fail : Bool)
    (pat : String) : Nat × CacheLayer V :=
  match c.redis_client with
  | none => (0, c)
  | some st =>
      if fail then (0, c)
      else
        let keys := (st.map (fun e => e.1)).filter
          (fun k => globMatch pat.toList k.toList)
        if keys = [] then (0, c)
        else
          (keys.dedup.length,
           ⟨some (st.filter (fun e => ! globMatch pat.toList e.1.toList))⟩)

/-- The `FeatureFlag` persisted record (timestamps are irrelevant to the
claims and omitted). -/
structure FeatureFlag where
  name : String
  description : Option String
  is_enabled : Bool
deriving DecidableEq, Repr

/-- The state seen by `FeatureFlagService`: the shared cache (flag values
are booleans) and the persistent store, a table of `FeatureFlag` rows with
unique names. -/
structure FlagSystem where
  cache : CacheLayer Bool
  db : List FeatureFlag
deriving DecidableEq, Repr

/-- `FeatureFlagService.get_flag_state`: (1) check the cache; on a hit
return `bool(cached_state)`; (2) else query the store; on a hit write the
value into the cache with `ttl=60` and return it; (3) else return
`default`.  `fail` is whether cache-backend calls made during this
operation raise (each such exception is swallowed inside `CacheLayer`). -/
def FeatureFlagService.get_flag_state (s : FlagSystem) (fail : Bool)
    (name : String) (default : Bool) : Bool × FlagSystem :=
  let cache_key := "flag:" ++ name
  match s.cache.get fail cache_key with
  | some b => (b, s)
  | none =>
      match s.db.find? (fun f => f.name == name) with
      | some flag =>
          let r := s.cache.set fail cache_key flag.is_enabled 60
          (flag.is_enabled, { s with cache := r.2 })
      | none => (default, s)

/-- `FeatureFlagService.create_flag`: return the existing record if the
name is taken; otherwise insert the new row (the commit is modelled as
succeeding; the race-condition rollback path is not taken) and prime the
cache with `ttl=60`. -/
def FeatureFlagService.create_flag (s : FlagSystem) (fail : Bool)
    (name : String) (description : Option String) (is_enabled : Bool) :
    FeatureFlag × FlagSystem :=
  match s.db.find? (fun f => f.name == name) with
  | some existing => (existing, s)
  | none =>
      let new_flag : FeatureFlag :=
        { name := name, description := description, is_enabled := is_enabled }
      let r := s.cache.set fail ("flag:" ++ name) is_enabled 60
      (new_flag, { cache := r.2, db := s.db ++ [new_flag] })

/-- `FeatureFlagService.toggle_flag`: update the matching rows; if none
matched return `False`; otherwise overwrite the cache entry with `ttl=60`
and return `True`. -/
def FeatureFlagService.toggle_flag (s : FlagSystem) (fail : Bool)
    (name : String) (is_enabled : Bool) : Bool × FlagSystem :=
  let rowcount := (s.db.filter (fun f => f.name == name)).length
  let db2 := s.db.map (fun f =>
    if f.name == name then { f with is_enabled := is_enabled } else f)
  if rowcount = 0 then (false, { s with db := db2 })
  else
    let r := s.cache.set fail ("flag:" ++ name) is_enabled 60
    (true, { cache := r.2, db := db2 })

/-! ## Theorems -/

/-- Claim C1, counterexample: a HALF_OPEN breaker with
`half_open_calls = 0` and `half_open_max_calls = 1` admits the call, but
the admission check itself leaves `half_open_calls` at 0 rather than
incrementing it to 1: the increment happens only when the outcome is
recorded. -/
theorem c1_admission_increment_counterexample :
    (CircuitBreaker.should_allow_request
      { failure_threshold := 5, recovery_timeout := 30,
        half_open_max_calls := 1, state := CircuitState.HALF_OPEN,
        failure_count := 0, success_count := 0, last_failure_time := 0,
        half_open_calls := 0 } 0).1 = true ∧
    ¬ ((CircuitBreaker.should_allow_request
      { failure_threshold := 5, recovery_timeout := 30,
        half_open_max_calls := 1, state := CircuitState.HALF_OPEN,
        failure_count := 0, success_count := 0, last_failure_time := 0,
        half_open_calls := 0 } 0).2.half_open_calls = 0 + 1) := by
  decide

/-- Claim C1 (amended): for every breaker in HALF_OPEN the admission
check returns true iff `half_open_calls < half_open_max_calls` and leaves
the breaker — in particular `half_open_calls` — unchanged; `half_open_calls`
is incremented by 1 when a success is recorded (`_record_success`), so in
the end-to-end scenario `half_open_calls` is still 0 immediately after
the first admitted call and becomes 1 once its success is recorded. -/
theorem c1_halfopen_admission_amended (cb : CircuitBreaker) (now : ℚ)
    (hs : cb.state = CircuitState.HALF_OPEN) :
    ((cb.should_allow_request now).1 = true ↔
      cb.half_open_calls < cb.half_open_max_calls) ∧
    (cb.should_allow_request now).2 = cb ∧
    (cb.record_success).half_open_calls = cb.half_open_calls + 1 := by
  unfold CircuitBreaker.should_allow_request CircuitBreaker.record_success
  simp only [hs]
  refine ⟨?_, ?_, ?_⟩
  · by_cases h : cb.half_open_calls < cb.half_open_max_calls <;> simp [h]
  · by_cases h : cb.half_open_calls < cb.half_open_max_calls <;> simp [h]
  · by_cases h : cb.success_count + 1 ≥ cb.half_open_max_calls <;> simp [h]

/-- Witness for C1 (amended) at a concrete HALF_OPEN breaker. -/
theorem c1_halfopen_admission_amended_witness :
    ({ failure_threshold := 5, recovery_timeout := 30,
       half_open_max_calls := 1, state := CircuitState.HALF_OPEN,
       failure_count := 0, success_count := 0, last_failure_time := 0,
       half_open_calls := 0 } : CircuitBreaker).state = CircuitState.HALF_OPEN ∧
    (((CircuitBreaker.should_allow_request
        { failure_threshold := 5, recovery_timeout := 30,
          half_open_max_calls := 1, state := CircuitState.HALF_OPEN,
          failure_count := 0, success_count := 0, last_failure_time := 0,
          half_open_calls := 0 } 0).1 = true ↔ (0 : Nat) < 1) ∧
      (CircuitBreaker.should_allow_request
        { failure_threshold := 5, recovery_timeout := 30,
          half_open_max_calls := 1, state := CircuitState.HALF_OPEN,
          failure_count := 0, success_count := 0, last_failure_time := 0,
          half_open_calls := 0 } 0).2 =
        { failure_threshold := 5, recovery_timeout := 30,
          half_open_max_calls := 1, state := CircuitState.HALF_OPEN,
          failure_count := 0, success_count := 0, last_failure_time := 0,
          half_open_calls := 0 } ∧
      (CircuitBreaker.record_success
        { failure_threshold := 5, recovery_timeout := 30,
          half_open_max_calls := 1, state := CircuitState.HALF_OPEN,
          failure_count := 0, success_count := 0, last_failure_time := 0,
          half_open_calls := 0 }).half_open_calls = 0 + 1) :=
  ⟨by decide,
   c1_halfopen_admission_amended
     { failure_threshold := 5, recovery_timeout := 30,
       half_open_max_calls := 1, state := CircuitState.HALF_OPEN,
       failure_count := 0, success_count := 0, last_failure_time := 0,
       half_open_calls := 0 } 0 (by decide)⟩

/-- Recording a failure never changes the breaker's configuration. -/
theorem record_failure_config (cb : CircuitBreaker) (t : ℚ) :
    (cb.record_failure t).failure_threshold = cb.failure_threshold ∧
    (cb.record_failure t).recovery_timeout = cb.recovery_timeout ∧
    (cb.record_failure t).half_open_max_calls = cb.half_open_max_calls := by
  refine ⟨?_, ?_, ?_⟩ <;>
    (simp only [CircuitBreaker.record_failure]; split_ifs <;> rfl)

/-- Recording a failure on an OPEN breaker keeps it OPEN, increments
`failure_count` and stamps `last_failure_time`. -/
theorem record_failure_open (cb : CircuitBreaker) (t : ℚ)
    (h : cb.state = CircuitState.OPEN) :
    (cb.record_failure t).state = CircuitState.OPEN ∧
    (cb.record_failure t).failure_count = cb.failure_count + 1 ∧
    (cb.record_failure t).last_failure_time = t := by
  unfold CircuitBreaker.record_failure
  simp [h]

/-- OPEN is absorbing under any sequence of recorded failures. -/
theorem record_failures_open (ts : List ℚ) :
    ∀ cb : CircuitBreaker, cb.state = CircuitState.OPEN →
      (record_failures cb ts).state = CircuitState.OPEN := by
  induction ts with
  | nil => intro cb h; exact h
  | cons t ts ih =>
      intro cb h
      have hstep : record_failures cb (t :: ts) =
          record_failures (cb.record_failure t) ts := rfl
      rw [hstep]
      exact ih _ (record_failure_open cb t h).1

/-- Progress of a failure sequence on a CLOSED breaker: either the
circuit has opened, or it is still CLOSED with the failure count having
grown by the length of the sequence while staying below the threshold. -/
theorem record_failures_closed (ts : List ℚ) :
    ∀ cb : CircuitBreaker, cb.state = CircuitState.CLOSED →
      (record_failures cb ts).state = CircuitState.OPEN ∨
      ((record_failures cb ts).state = CircuitState.CLOSED ∧
       (record_failures cb ts).failure_count = cb.failure_count + ts.length ∧
       (ts ≠ [] →
         (record_failures cb ts).failure_count < cb.failure_threshold)) := by
  induction ts with
  | nil =>
      intro cb h
      exact Or.inr ⟨h, rfl, fun hne => absurd rfl hne⟩
  | cons t ts ih =>
      intro cb h
      have hstep : record_failures cb (t :: ts) =
          record_failures (cb.record_failure t) ts := rfl
      rw [hstep]
      by_cases hth : cb.failure_count + 1 ≥ cb.failure_threshold
      · have hopen : (cb.record_failure t).state = CircuitState.OPEN := by
          unfold CircuitBreaker.record_failure
          simp [h, hth]
        exact Or.inl (record_failures_open ts _ hopen)
      · have hclosed : (cb.record_failure t).state = CircuitState.CLOSED ∧
            (cb.record_failure t).failure_count = cb.failure_count + 1 := by
          unfold CircuitBreaker.record_failure
          simp [h, hth]
        rcases ih (cb.record_failure t) hclosed.1 with hop | ⟨hc, hfc, hlt⟩
        · exact Or.inl hop
        · refine Or.inr ⟨hc, ?_, fun _ => ?_⟩
          · rw [hfc, hclosed.2]
            simp [List.length_cons]
            ring
          · rcases List.eq_nil_or_concat ts with hnil | _
            · subst hnil
              have : record_failures (cb.record_failure t) [] =
                  cb.record_failure t := rfl
              rw [this, hclosed.2]
              omega
            · have hts : ts ≠ [] := by
                rintro rfl
                simp_all
              have := hlt hts
              rw [(record_failure_config cb t).1] at this
              exact this

/-- Claim C2, counterexample: a CLOSED breaker configured with
`failure_threshold = 0` and the (empty) sequence of `failure_threshold`
consecutive failures: the state is still CLOSED, not OPEN, and the next
admission check returns true. -/
theorem c2_zero_threshold_counterexample :
    ([] : List ℚ).length =
      ({ failure_threshold := 0, recovery_timeout := 30,
         half_open_max_calls := 3, state := CircuitState.CLOSED,
         failure_count := 0, success_count := 0, last_failure_time := 0,
         half_open_calls := 0 } : CircuitBreaker).failure_threshold ∧
    ¬ ((record_failures
         { failure_threshold := 0, recovery_timeout := 30,
           half_open_max_calls := 3, state := CircuitState.CLOSED,
           failure_count := 0, success_count := 0, last_failure_time := 0,
           half_open_calls := 0 } []).state = CircuitState.OPEN) ∧
    (CircuitBreaker.should_allow_request
      (record_failures
        { failure_threshold := 0, recovery_timeout := 30,
          half_open_max_calls := 3, state := CircuitState.CLOSED,
          failure_count := 0, success_count := 0, last_failure_time := 0,
          half_open_calls := 0 } []) 0).1 = true := by
  decide

/-- Claim C2 (amended): for every breaker in CLOSED with
`failure_threshold ≥ 1`, after any sequence of `failure_threshold`
consecutive recorded failures (no intervening success) the state is OPEN,
and every subsequent admission check performed at a time `now` with
`now - last_failure_time < recovery_timeout` returns false and leaves the
breaker unchanged. -/
theorem c2_failures_open_circuit (cb : CircuitBreaker) (ts : List ℚ)
    (hs : cb.state = CircuitState.CLOSED)
    (hlen : ts.length = cb.failure_threshold)
    (hpos : 1 ≤ cb.failure_threshold) :
    (record_failures cb ts).state = CircuitState.OPEN ∧
    ∀ now : ℚ,
      now - (record_failures cb ts).last_failure_time <
        (record_failures cb ts).recovery_timeout →
      (record_failures cb ts).should_allow_request now =
        (false, record_failures cb ts) := by
  have hne : ts ≠ [] := by
    intro hnil
    rw [hnil] at hlen
    simp at hlen
    omega
  have hopen : (record_failures cb ts).state = CircuitState.OPEN := by
    rcases record_failures_closed ts cb hs with hop | ⟨_, hfc, hlt⟩
    · exact hop
    · exfalso
      have h1 := hlt hne
      rw [hfc, hlen] at h1
      omega
  refine ⟨hopen, fun now hnow => ?_⟩
  unfold CircuitBreaker.should_allow_request
  simp only [hopen]
  rw [if_neg (not_le.mpr hnow)]

/-- Witness for C2 (amended): a fresh breaker with threshold 2 opens
after failures at times 1 and 2, and an admission check at time 2 is
denied. -/
theorem c2_failures_open_circuit_witness :
    ({ failure_threshold := 2, recovery_timeout := 30,
       half_open_max_calls := 3, state := CircuitState.CLOSED,
       failure_count := 0, success_count := 0, last_failure_time := 0,
       half_open_calls := 0 } : CircuitBreaker).state = CircuitState.CLOSED ∧
    [(1 : ℚ), 2].length =
      ({ failure_threshold := 2, recovery_timeout := 30,
         half_open_max_calls := 3, state := CircuitState.CLOSED,
         failure_count := 0, success_count := 0, last_failure_time := 0,
         half_open_calls := 0 } : CircuitBreaker).failure_threshold ∧
    (record_failures
      { failure_threshold := 2, recovery_timeout := 30,
        half_open_max_calls := 3, state := CircuitState.CLOSED,
        failure_count := 0, success_count := 0, last_failure_time := 0,
        half_open_calls := 0 } [1, 2]).state = CircuitState.OPEN ∧
    (record_failures
      { failure_threshold := 2, recovery_timeout := 30,
        half_open_max_calls := 3, state := CircuitState.CLOSED,
        failure_count := 0, success_count := 0, last_failure_time := 0,
        half_open_calls := 0 } [1, 2]).should_allow_request 2 =
      (false, record_failures
        { failure_threshold := 2, recovery_timeout := 30,
          half_open_max_calls := 3, state := CircuitState.CLOSED,
          failure_count := 0, success_count := 0, last_failure_time := 0,
          half_open_calls := 0 } [1, 2]) := by
  have main := c2_failures_open_circuit
    { failure_threshold := 2, recovery_timeout := 30,
      half_open_max_calls := 3, state := CircuitState.CLOSED,
      failure_count := 0, success_count := 0, last_failure_time := 0,
      half_open_calls := 0 } [1, 2] rfl rfl (by decide)
  exact ⟨rfl, rfl, main.1, main.2 2 (by show (2 : ℚ) - 2 < 30; norm_num)⟩

/-- Recording a success on a CLOSED breaker whose failure count is
already 0 changes nothing. -/
theorem record_success_closed_fix (cb : CircuitBreaker)
    (hs : cb.state = CircuitState.CLOSED) (hf : cb.failure_count = 0) :
    cb.record_success = cb := by
  unfold CircuitBreaker.record_success
  rw [if_neg (by simp [hs])]
  cases cb
  simp_all

/-- A CLOSED breaker with zero failures is a fixed point of any number of
recorded successes. -/
theorem record_successes_closed_fix :
    ∀ (n : Nat) (cb : CircuitBreaker), cb.state = CircuitState.CLOSED →
      cb.failure_count = 0 → record_successes cb n = cb := by
  intro n
  induction n with
  | zero => intro cb _ _; rfl
  | succ n ih =>
      intro cb hs hf
      have hstep : record_successes cb (n + 1) =
          record_successes cb.record_success n := rfl
      rw [hstep, record_success_closed_fix cb hs hf]
      exact ih cb hs hf

/-- Enough consecutive successes close a HALF_OPEN circuit: if
`half_open_max_calls ≤ success_count + n` and `n ≥ 1`, then after `n`
recorded successes the breaker is CLOSED with both counters 0. -/
theorem record_successes_halfopen :
    ∀ (n : Nat) (cb : CircuitBreaker), cb.state = CircuitState.HALF_OPEN →
      cb.half_open_max_calls ≤ cb.success_count + n → 1 ≤ n →
      (record_successes cb n).state = CircuitState.CLOSED ∧
      (record_successes cb n).failure_count = 0 ∧
      (record_successes cb n).success_count = 0 := by
  intro n
  induction n with
  | zero => intro cb _ _ hpos; omega
  | succ n ih =>
      intro cb hs hle _
      have hstep : record_successes cb (n + 1) =
          record_successes cb.record_success n := rfl
      rw [hstep]
      by_cases hcl : cb.success_count + 1 ≥ cb.half_open_max_calls
      · have hval : cb.record_success =
            { cb with success_count := 0, half_open_calls := cb.half_open_calls + 1,
                      state := CircuitState.CLOSED, failure_count := 0 } := by
          unfold CircuitBreaker.record_success
          simp [hs, hcl]
        rw [hval, record_successes_closed_fix n _ rfl rfl]
        exact ⟨rfl, rfl, rfl⟩
      · have hval : cb.record_success =
            { cb with success_count := cb.success_count + 1,
                      half_open_calls := cb.half_open_calls + 1 } := by
          unfold CircuitBreaker.record_success
          simp [hs, hcl]
        have hn : 1 ≤ n := by
          by_contra hn0
          have : n = 0 := by omega
          subst this
          omega
        have := ih cb.record_success (by rw [hval]; exact hs)
          (by rw [hval]
              show cb.half_open_max_calls ≤ cb.success_count + 1 + n
              omega) hn
        exact this

/-- Claim C4, counterexample: a HALF_OPEN breaker configured with
`half_open_max_calls = 0` after its (empty) run of `half_open_max_calls`
consecutive successes is still HALF_OPEN, not CLOSED. -/
theorem c4_zero_max_calls_counterexample :
    ¬ ((record_successes
         { failure_threshold := 5, recovery_timeout := 30,
           half_open_max_calls := 0, state := CircuitState.HALF_OPEN,
           failure_count := 3, success_count := 0, last_failure_time := 0,
           half_open_calls := 0 }
         ({ failure_threshold := 5, recovery_timeout := 30,
            half_open_max_calls := 0, state := CircuitState.HALF_OPEN,
            failure_count := 3, success_count := 0, last_failure_time := 0,
            half_open_calls := 0 } : CircuitBreaker).half_open_max_calls).state =
        CircuitState.CLOSED) := by
  decide

/-- Claim C4 (amended): for every breaker in HALF_OPEN with
`half_open_max_calls ≥ 1`: after `half_open_max_calls` consecutive
recorded successes the state is CLOSED with `failure_count` and
`success_count` both 0; and any single recorded failure while HALF_OPEN
sets the state to OPEN, resets `success_count` to 0, and updates
`last_failure_time` to the time of that failure. -/
theorem c4_halfopen_success_failure (cb : CircuitBreaker)
    (hs : cb.state = CircuitState.HALF_OPEN)
    (hpos : 1 ≤ cb.half_open_max_calls) :
    ((record_successes cb cb.half_open_max_calls).state = CircuitState.CLOSED ∧
     (record_successes cb cb.half_open_max_calls).failure_count = 0 ∧
     (record_successes cb cb.half_open_max_calls).success_count = 0) ∧
    ∀ t : ℚ, (cb.record_failure t).state = CircuitState.OPEN ∧
      (cb.record_failure t).success_count = 0 ∧
      (cb.record_failure t).last_failure_time = t := by
  constructor
  · exact record_successes_halfopen cb.half_open_max_calls cb hs
      (Nat.le_add_left _ _) hpos
  · intro t
    unfold CircuitBreaker.record_failure
    simp [hs]

/-- Witness for C4 (amended): a HALF_OPEN breaker with
`half_open_max_calls = 1` closes (counters 0) after one success, and a
failure at time 5 instead reopens it. -/
theorem c4_halfopen_success_failure_witness :
    ({ failure_threshold := 5, recovery_timeout := 30,
       half_open_max_calls := 1, state := CircuitState.HALF_OPEN,
       failure_count := 3, success_count := 0, last_failure_time := 0,
       half_open_calls := 0 } : CircuitBreaker).state = CircuitState.HALF_OPEN ∧
    ((record_successes
        { failure_threshold := 5, recovery_timeout := 30,
          half_open_max_calls := 1, state := CircuitState.HALF_OPEN,
          failure_count := 3, success_count := 0, last_failure_time := 0,
          half_open_calls := 0 } 1).state = CircuitState.CLOSED ∧
     (record_successes
        { failure_threshold := 5, recovery_timeout := 30,
          half_open_max_calls := 1, state := CircuitState.HALF_OPEN,
          failure_count := 3, success_count := 0, last_failure_time := 0,
          half_open_calls := 0 } 1).failure_count = 0 ∧
     (record_successes
        { failure_threshold := 5, recovery_timeout := 30,
          half_open_max_calls := 1, state := CircuitState.HALF_OPEN,
          failure_count := 3, success_count := 0, last_failure_time := 0,
          half_open_calls := 0 } 1).success_count = 0) ∧
    (CircuitBreaker.record_failure
      { failure_threshold := 5, recovery_timeout := 30,
        half_open_max_calls := 1, state := CircuitState.HALF_OPEN,
        failure_count := 3, success_count := 0, last_failure_time := 0,
        half_open_calls := 0 } 5).state = CircuitState.OPEN ∧
    (CircuitBreaker.record_failure
      { failure_threshold := 5, recovery_timeout := 30,
        half_open_max_calls := 1, state := CircuitState.HALF_OPEN,
        failure_count := 3, success_count := 0, last_failure_time := 0,
        half_open_calls := 0 } 5).success_count = 0 ∧
    (CircuitBreaker.record_failure
      { failure_threshold := 5, recovery_timeout := 30,
        half_open_max_calls := 1, state := CircuitState.HALF_OPEN,
        failure_count := 3, success_count := 0, last_failure_time := 0,
        half_open_calls := 0 } 5).last_failure_time = 5 := by
  have main := c4_halfopen_success_failure
    { failure_threshold := 5, recovery_timeout := 30,
      half_open_max_calls := 1, state := CircuitState.HALF_OPEN,
      failure_count := 3, success_count := 0, last_failure_time := 0,
      half_open_calls := 0 } rfl (by decide)
  exact ⟨rfl, main.1, (main.2 5).1, (main.2 5).2.1, (main.2 5).2.2⟩

/-- Claim C3: for every OPEN breaker, an admission check performed at a
time `now` with `now - last_failure_time ≥ recovery_timeout` returns true
and — as a side effect of the check itself — moves the breaker to
HALF_OPEN with `half_open_calls` reset to 0 and every other field
unchanged. -/
theorem c3_open_to_halfopen_on_admission (cb : CircuitBreaker) (now : ℚ)
    (hs : cb.state = CircuitState.OPEN)
    (ht : now - cb.last_failure_time ≥ cb.recovery_timeout) :
    cb.should_allow_request now =
      (true, { cb with state := CircuitState.HALF_OPEN, half_open_calls := 0 }) := by
  unfold CircuitBreaker.should_allow_request CircuitBreaker.transition_to_half_open
  simp only [hs]
  rw [if_pos ht]

/-- Witness for C3 at a concrete OPEN breaker past its recovery timeout. -/
theorem c3_open_to_halfopen_on_admission_witness :
    ({ failure_threshold := 2, recovery_timeout := 1,
       half_open_max_calls := 1, state := CircuitState.OPEN,
       failure_count := 2, success_count := 0, last_failure_time := 10,
       half_open_calls := 0 } : CircuitBreaker).state = CircuitState.OPEN ∧
    (11 : ℚ) - 10 ≥ 1 ∧
    CircuitBreaker.should_allow_request
      { failure_threshold := 2, recovery_timeout := 1,
        half_open_max_calls := 1, state := CircuitState.OPEN,
        failure_count := 2, success_count := 0, last_failure_time := 10,
        half_open_calls := 0 } 11 =
      (true, { failure_threshold := 2, recovery_timeout := 1,
               half_open_max_calls := 1, state := CircuitState.HALF_OPEN,
               failure_count := 2, success_count := 0, last_failure_time := 10,
               half_open_calls := 0 }) :=
  ⟨by decide, by norm_num,
   c3_open_to_halfopen_on_admission
     { failure_threshold := 2, recovery_timeout := 1,
       half_open_max_calls := 1, state := CircuitState.OPEN,
       failure_count := 2, success_count := 0, last_failure_time := 10,
       half_open_calls := 0 } 11 (by decide) (by norm_num)⟩

/-- Claim C5: with `max_attempts = 3`, an operation failing on its first
two invocations and succeeding on the third returns that success after
exactly 3 invocations; an operation failing on all three is invoked
exactly 3 times and the error object of the last attempt is re-raised
unchanged (no wrapping, no new error type).  In both cases exactly two
sleeps occur — after attempts 1 and 2 — and none after the final
attempt. -/
theorem c5_retry_semantics {E A : Type} (op : Nat → Except E A)
    (d md b : ℚ) (e0 e1 : E)
    (h0 : op 0 = Except.error e0) (h1 : op 1 = Except.error e1) :
    (∀ a : A, op 2 = Except.ok a →
       with_retry op 3 d md b = (Except.ok a, 3, [min d md, min (d * b) md])) ∧
    (∀ e2 : E, op 2 = Except.error e2 →
       with_retry op 3 d md b =
         (Except.error (some e2), 3, [min d md, min (d * b) md])) := by
  constructor
  · intro a h2
    simp [with_retry, with_retry_go, h0, h1, h2]
  · intro e2 h2
    simp [with_retry, with_retry_go, h0, h1, h2]

/-- Witness for C5: the fail-twice-then-succeed operation and the
always-failing operation, both at the default delays. -/
theorem c5_retry_semantics_witness :
    (fun n => if n < 2 then Except.error n else Except.ok 99 : Nat → Except Nat Nat) 0 =
      Except.error 0 ∧
    with_retry (fun n => if n < 2 then Except.error n else Except.ok 99) 3 1 10 2 =
      (Except.ok 99, 3, [min 1 10, min (1 * 2) 10]) ∧
    with_retry (fun n => (Except.error n : Except Nat Nat)) 3 1 10 2 =
      (Except.error (some 2), 3, [min 1 10, min (1 * 2) 10]) :=
  ⟨rfl,
   (c5_retry_semantics (fun n => if n < 2 then Except.error n else Except.ok 99)
     1 10 2 0 1 rfl rfl).1 99 rfl,
   (c5_retry_semantics (fun n => (Except.error n : Except Nat Nat))
     1 10 2 0 1 rfl rfl).2 2 rfl⟩

/-- The retry loop never invokes the operation more often than it has
fuel (loop iterations) left. -/
theorem with_retry_go_calls_le {E A : Type} (op : Nat → Except E A)
    (m : Nat) (md b : ℚ) :
    ∀ (fuel attempt : Nat) (delay : ℚ) (lastE : Option E),
      (with_retry_go op m md b attempt fuel delay lastE).2.1 ≤ fuel := by
  intro fuel
  induction fuel with
  | zero => intro attempt delay lastE; simp [with_retry_go]
  | succ n ih =>
      intro attempt delay lastE
      simp only [with_retry_go]
      cases hop : op attempt with
      | ok a => simp [hop]
      | error e =>
          simp only [hop]
          split
          · simpa using Nat.succ_le_succ (ih (attempt + 1) (delay * b) (some e))
          · simpa using Nat.succ_le_succ (ih (attempt + 1) delay (some e))

/-- If every attempt the loop can make fails, the loop makes exactly
`fuel` invocations and ends in an error. -/
theorem with_retry_go_all_fail {E A : Type} (op : Nat → Except E A)
    (m : Nat) (md b : ℚ) :
    ∀ (fuel attempt : Nat) (delay : ℚ) (lastE : Option E),
      (∀ i, i < fuel → ∃ e, op (attempt + i) = Except.error e) →
      (with_retry_go op m md b attempt fuel delay lastE).2.1 = fuel ∧
      ∃ e', (with_retry_go op m md b attempt fuel delay lastE).1 =
        Except.error e' := by
  intro fuel
  induction fuel with
  | zero =>
      intro attempt delay lastE _
      exact ⟨rfl, ⟨lastE, rfl⟩⟩
  | succ n ih =>
      intro attempt delay lastE hfail
      obtain ⟨e, he⟩ := hfail 0 (Nat.succ_pos n)
      rw [Nat.add_zero] at he
      have hnext : ∀ i, i < n → ∃ e, op (attempt + 1 + i) = Except.error e := by
        intro i hi
        have := hfail (i + 1) (by omega)
        rwa [show attempt + (i + 1) = attempt + 1 + i by omega] at this
      simp only [with_retry_go, he]
      split
      · have := ih (attempt + 1) (delay * b) (some e) hnext
        exact ⟨by simp [this.1], by simpa using this.2⟩
      · have := ih (attempt + 1) delay (some e) hnext
        exact ⟨by simp [this.1], by simpa using this.2⟩

/-- An admission check never changes `failure_count`. -/
theorem should_allow_request_failure_count (cb : CircuitBreaker) (now : ℚ) :
    (cb.should_allow_request now).2.failure_count = cb.failure_count := by
  unfold CircuitBreaker.should_allow_request CircuitBreaker.transition_to_half_open
  cases cb.state <;> simp <;> split_ifs <;> rfl

/-- Recording a failure increments `failure_count` by exactly 1. -/
theorem record_failure_count (cb : CircuitBreaker) (t : ℚ) :
    (cb.record_failure t).failure_count = cb.failure_count + 1 := by
  simp only [CircuitBreaker.record_failure]
  split_ifs <;> rfl

/-- Claim C6: `resilient` composes as `breaker(retry(operation))`: a
single invocation is one breaker admission check; if admitted, the inner
operation runs under the retry policy — at most `max_attempts`
invocations — and exactly one outcome is recorded (`record_success` if
the retried call returned, `record_failure` if it raised), so
`max_attempts` consecutive inner failures advance `failure_count` by
exactly 1; if denied, the inner operation is never invoked. -/
theorem c6_resilient_composition {E A : Type} (cb : CircuitBreaker) (now : ℚ)
    (fallback : Option A) (op : Nat → Except E A) (max_attempts : Nat) :
    ((resilient_call cb now fallback op max_attempts).1,
     (resilient_call cb now fallback op max_attempts).2.1) =
      circuit_breaker_call cb now fallback (with_retry op max_attempts 1 10 2).1 ∧
    ((cb.should_allow_request now).1 = true →
      (resilient_call cb now fallback op max_attempts).2.2.1 =
        (with_retry op max_attempts 1 10 2).2.1 ∧
      (resilient_call cb now fallback op max_attempts).2.2.1 ≤ max_attempts) ∧
    ((cb.should_allow_request now).1 = false →
      (resilient_call cb now fallback op max_attempts).2.2.1 = 0) ∧
    ((∀ i, i < max_attempts → ∃ e, op i = Except.error e) →
      (cb.should_allow_request now).1 = true →
      (resilient_call cb now fallback op max_attempts).2.2.1 = max_attempts ∧
      (resilient_call cb now fallback op max_attempts).2.1.failure_count =
        cb.failure_count + 1) := by
  unfold resilient_call circuit_breaker_call
  cases hallow : (cb.should_allow_request now).1 with
  | false =>
      simp only [hallow, Bool.false_eq_true, if_false]
      refine ⟨?_, fun h => absurd h (by simp), fun _ => ?_, fun _ h => absurd h (by simp)⟩
      · cases fallback <;> rfl
      · cases fallback <;> rfl
  | true =>
      simp only [hallow, if_true]
      have hle := with_retry_go_calls_le op max_attempts 10 2 max_attempts 0 1 none
      cases hr : (with_retry op max_attempts 1 10 2).1 with
      | ok a =>
          refine ⟨by simp [hr], fun _ => ⟨by simp [hr], ?_⟩, fun h => by simp at h,
                  fun hfail _ => ?_⟩
          · simp only [hr]
            exact hle
          · exfalso
            obtain ⟨e', he'⟩ := (with_retry_go_all_fail op max_attempts 10 2
              max_attempts 0 1 none (by simpa using hfail)).2
            rw [show with_retry_go op max_attempts 10 2 0 max_attempts 1 none =
              with_retry op max_attempts 1 10 2 from rfl] at he'
            rw [hr] at he'
            exact Except.noConfusion he'
      | error e =>
          have hall := with_retry_go_all_fail op max_attempts 10 2 max_attempts 0 1 none
          refine ⟨by simp [hr], fun _ => ⟨by simp [hr], ?_⟩, fun h => by simp at h,
                  fun hfail _ => ?_⟩
          · simp only [hr]
            exact hle
          · have hcalls := (hall (by simpa using hfail)).1
            rw [show with_retry_go op max_attempts 10 2 0 max_attempts 1 none =
              with_retry op max_attempts 1 10 2 from rfl] at hcalls
            refine ⟨by simp [hr, hcalls], ?_⟩
            simp only [hr]
            rw [record_failure_count, should_allow_request_failure_count]

/-- Witness for C6: a fresh CLOSED breaker, no fallback, an
always-failing operation and `max_attempts = 2`: the inner operation is
invoked twice and `failure_count` advances from 0 to 1. -/
theorem c6_resilient_composition_witness :
    ((mkCircuitBreaker 5 30 3).should_allow_request 0).1 = true ∧
    (resilient_call (mkCircuitBreaker 5 30 3) 0 (none : Option Nat)
      (fun n => (Except.error n : Except Nat Nat)) 2).2.2.1 = 2 ∧
    (resilient_call (mkCircuitBreaker 5 30 3) 0 (none : Option Nat)
      (fun n => (Except.error n : Except Nat Nat)) 2).2.1.failure_count = 1 := by
  have main := c6_resilient_composition (mkCircuitBreaker 5 30 3) 0
    (none : Option Nat) (fun n => (Except.error n : Except Nat Nat)) 2
  have hres := main.2.2.2 (fun i _ => ⟨i, rfl⟩) rfl
  exact ⟨rfl, hres.1, hres.2⟩

/-- Looking up a key right after it was inserted at the head finds it. -/
theorem lookupKV_cons_self {V : Type} (key : String) (v : V) (ttl : Nat)
    (l : List (String × V × Nat)) :
    lookupKV key ((key, v, ttl) :: l) = some (v, ttl) := by
  simp [lookupKV]

/-- Erasing a key removes every binding of it. -/
theorem lookupKV_eraseKV {V : Type} (key : String)
    (l : List (String × V × Nat)) :
    lookupKV key (eraseKV key l) = none := by
  induction l with
  | nil => rfl
  | cons e rest ih =>
      obtain ⟨k, v, t⟩ := e
      simp only [eraseKV, List.filter_cons, decide_not] at ih ⊢
      by_cases h : k = key
      · simpa [h] using ih
      · simp [h, lookupKV]
        exact ih

/-- Claim C8: no CacheStore operation raises to its caller (each is a
total function on the model); whenever the backend is unavailable
(`redis_client = none`) or the backend call fails (`fail = true`), `get`
returns absent, `set` returns false, `delete` returns false and
`invalidate_pattern` returns 0, each leaving the cache client unchanged,
for every key, value, TTL and pattern. -/
theorem c8_cache_degrades_safely {V : Type} (c : CacheLayer V) (fail : Bool)
    (key : String) (v : V) (ttl : Nat) (pat : String)
    (h : c.redis_client = none ∨ fail = true) :
    c.get fail key = none ∧
    c.set fail key v ttl = (false, c) ∧
    c.delete fail key = (false, c) ∧
    c.invalidate_pattern fail pat = (0, c) := by
  rcases h with h | h
  · refine ⟨?_, ?_, ?_, ?_⟩ <;>
      simp [CacheLayer.get, CacheLayer.set, CacheLayer.delete,
        CacheLayer.invalidate_pattern, h]
  · subst h
    cases hc : c.redis_client with
    | none =>
        refine ⟨?_, ?_, ?_, ?_⟩ <;>
          simp [CacheLayer.get, CacheLayer.set, CacheLayer.delete,
            CacheLayer.invalidate_pattern, hc]
    | some st =>
        refine ⟨?_, ?_, ?_, ?_⟩ <;>
          simp [CacheLayer.get, CacheLayer.set, CacheLayer.delete,
            CacheLayer.invalidate_pattern, hc]

/-- Witness for C8 at the disconnected client. -/
theorem c8_cache_degrades_safely_witness :
    (CacheLayer.get (⟨none⟩ : CacheLayer Nat) false "k") = none ∧
    (CacheLayer.set (⟨none⟩ : CacheLayer Nat) false "k" 7 300) =
      (false, (⟨none⟩ : CacheLayer Nat)) ∧
    (CacheLayer.delete (⟨none⟩ : CacheLayer Nat) false "k") =
      (false, (⟨none⟩ : CacheLayer Nat)) ∧
    (CacheLayer.invalidate_pattern (⟨none⟩ : CacheLayer Nat) false "user:*") =
      (0, (⟨none⟩ : CacheLayer Nat)) :=
  c8_cache_degrades_safely (⟨none⟩ : CacheLayer Nat) false "k" 7 300 "user:*"
    (Or.inl rfl)

/-- Claim C9: with a healthy backend (no failure injected, no intervening
writes or expiry), `get key` immediately after a `set key v ttl` that
returned success yields `v`, and `get key` after `delete key` yields
absent. -/
theorem c9_cache_get_set_delete {V : Type} (c : CacheLayer V) (key : String)
    (v : V) (ttl : Nat) :
    ((c.set false key v ttl).1 = true →
      (c.set false key v ttl).2.get false key = some v) ∧
    (c.delete false key).2.get false key = none := by
  constructor
  · intro hset
    cases hc : c.redis_client with
    | none => simp [CacheLayer.set, hc] at hset
    | some st =>
        simp [CacheLayer.set, CacheLayer.get, hc, lookupKV_cons_self]
  · cases hc : c.redis_client with
    | none => simp [CacheLayer.delete, CacheLayer.get, hc]
    | some st =>
        simp [CacheLayer.delete, CacheLayer.get, hc, lookupKV_eraseKV]

/-- Witness for C9 at a concrete connected cache. -/
theorem c9_cache_get_set_delete_witness :
    (CacheLayer.set (⟨some []⟩ : CacheLayer Nat) false "k" 7 300).1 = true ∧
    (CacheLayer.set (⟨some []⟩ : CacheLayer Nat) false "k" 7 300).2.get false "k" =
      some 7 ∧
    (CacheLayer.delete (⟨some [("k", 7, 300)]⟩ : CacheLayer Nat) false "k").2.get
      false "k" = none :=
  ⟨rfl,
   (c9_cache_get_set_delete (⟨some []⟩ : CacheLayer Nat) "k" 7 300).1 rfl,
   (c9_cache_get_set_delete (⟨some [("k", 7, 300)]⟩ : CacheLayer Nat) "k" 7 300).2⟩

/-- Resolution step 1 of `get_flag_state`: a cache hit is returned as-is,
with no state change. -/
theorem get_flag_state_cached (s : FlagSystem) (name : String)
    (default b : Bool)
    (hc : s.cache.get false ("flag:" ++ name) = some b) :
    FeatureFlagService.get_flag_state s false name default = (b, s) := by
  simp [FeatureFlagService.get_flag_state, hc]

/-- Resolution step 2 of `get_flag_state`: on a cache miss with the flag
present in the persistent store, the stored value is returned and written
into the cache with a TTL of 60 seconds. -/
theorem get_flag_state_db_hit (s : FlagSystem) (name : String)
    (default : Bool) (flag : FeatureFlag)
    (hc : s.cache.get false ("flag:" ++ name) = none)
    (hdb : s.db.find? (fun f => f.name == name) = some flag) :
    FeatureFlagService.get_flag_state s false name default =
      (flag.is_enabled,
       { s with cache :=
           (s.cache.set false ("flag:" ++ name) flag.is_enabled 60).2 }) := by
  simp [FeatureFlagService.get_flag_state, hc, hdb]

/-- Resolution step 3 of `get_flag_state`: cache miss and store miss
return the caller-supplied default, with no state change. -/
theorem get_flag_state_default (s : FlagSystem) (name : String)
    (default : Bool)
    (hc : s.cache.get false ("flag:" ++ name) = none)
    (hdb : s.db.find? (fun f => f.name == name) = none) :
    FeatureFlagService.get_flag_state s false name default = (default, s) := by
  simp [FeatureFlagService.get_flag_state, hc, hdb]

/-- A store with no flag named "x" has an empty filter for that name. -/
theorem flag_filter_nil (s₀ : FlagSystem)
    (hdb : s₀.db.find? (fun f => f.name == "x") = none) :
    s₀.db.filter (fun f => f.name == "x") = [] := by
  rw [List.filter_eq_nil_iff]
  intro a ha
  have := List.find?_eq_none.mp hdb a ha
  simpa using this

/-- Toggling "x" rewrites no row of a store with no flag named "x". -/
theorem flag_map_id (s₀ : FlagSystem)
    (hdb : s₀.db.find? (fun f => f.name == "x") = none) :
    s₀.db.map (fun f =>
      if f.name = "x" then { f with is_enabled := false } else f) = s₀.db := by
  have h : ∀ a ∈ s₀.db, (fun f =>
      if f.name = "x" then { f with is_enabled := false } else f) a = id a := by
    intro a ha
    have := List.find?_eq_none.mp hdb a ha
    simp only [id]
    simp at this
    simp [this]
  rw [List.map_congr_left h, List.map_id]

/-- The kill-switch scenario of the spec: on a system whose cache and
store know nothing about flag "x", reading "x" with default false gives
false; after creating "x" enabled it gives true; and after toggling "x"
off, the very next read gives false (the toggle overwrote the cache, so
no TTL expiry is needed).  Proven for both a connected and a disconnected
cache backend, with no backend failures injected. -/
theorem flag_kill_switch_scenario (s₀ : FlagSystem)
    (hdb : s₀.db.find? (fun f => f.name == "x") = none)
    (hc : s₀.cache.get false "flag:x" = none) :
    (FeatureFlagService.get_flag_state s₀ false "x" false).1 = false ∧
    (FeatureFlagService.get_flag_state
       (FeatureFlagService.create_flag s₀ false "x" none true).2
       false "x" false).1 = true ∧
    (FeatureFlagService.get_flag_state
       (FeatureFlagService.toggle_flag
         (FeatureFlagService.get_flag_state
           (FeatureFlagService.create_flag s₀ false "x" none true).2
           false "x" false).2
         false "x" false).2 false "x" false).1 = false := by
  have hfilter : s₀.db.filter (fun f => f.name == "x") = [] :=
    flag_filter_nil s₀ hdb
  have hmap : s₀.db.map (fun f =>
      if f.name = "x" then { f with is_enabled := false } else f) = s₀.db :=
    flag_map_id s₀ hdb
  refine ⟨by simp [FeatureFlagService.get_flag_state, hc, hdb], ?_⟩
  cases hcl : s₀.cache.redis_client with
  | none =>
      have hsetd : ∀ (b : Bool) (k : String),
          s₀.cache.set false k b 60 = (false, s₀.cache) := by
        intro b k; simp [CacheLayer.set, hcl]
      have hgetd : ∀ k, s₀.cache.get false k = none := by
        intro k; simp [CacheLayer.get, hcl]
      have ecreate : (FeatureFlagService.create_flag s₀ false "x" none true).2 =
          { cache := s₀.cache,
            db := s₀.db ++ [{ name := "x", description := none, is_enabled := true }] } := by
        simp [FeatureFlagService.create_flag, hdb, hsetd]
      rw [ecreate]
      have e2 : FeatureFlagService.get_flag_state
          { cache := s₀.cache,
            db := s₀.db ++ [({ name := "x", description := none, is_enabled := true } : FeatureFlag)] }
          false "x" false =
          (true,
           { cache := s₀.cache,
             db := s₀.db ++ [({ name := "x", description := none, is_enabled := true } : FeatureFlag)] }) := by
        simp [FeatureFlagService.get_flag_state, hgetd, List.find?_append, hdb, hsetd]
      rw [e2]
      have etog : FeatureFlagService.toggle_flag
          { cache := s₀.cache,
            db := s₀.db ++ [({ name := "x", description := none, is_enabled := true } : FeatureFlag)] }
          false "x" false =
          (true,
           { cache := s₀.cache,
             db := s₀.db ++ [({ name := "x", description := none, is_enabled := false } : FeatureFlag)] }) := by
        simp [FeatureFlagService.toggle_flag, List.filter_append, hfilter,
          List.map_append, hmap, hsetd]
      rw [etog]
      simp [FeatureFlagService.get_flag_state, hgetd, List.find?_append, hdb, hsetd]
  | some st₀ =>
      have ecreate : (FeatureFlagService.create_flag s₀ false "x" none true).2 =
          { cache := ⟨some (("flag:x", true, 60) :: eraseKV "flag:x" st₀)⟩,
            db := s₀.db ++ [{ name := "x", description := none, is_enabled := true }] } := by
        simp [FeatureFlagService.create_flag, hdb, CacheLayer.set, hcl]
      rw [ecreate]
      have e2 : FeatureFlagService.get_flag_state
          { cache := ⟨some (("flag:x", true, 60) :: eraseKV "flag:x" st₀)⟩,
            db := s₀.db ++ [({ name := "x", description := none, is_enabled := true } : FeatureFlag)] }
          false "x" false =
          (true,
           { cache := ⟨some (("flag:x", true, 60) :: eraseKV "flag:x" st₀)⟩,
             db := s₀.db ++ [({ name := "x", description := none, is_enabled := true } : FeatureFlag)] }) := by
        simp [FeatureFlagService.get_flag_state, CacheLayer.get, lookupKV_cons_self]
      rw [e2]
      have etog : FeatureFlagService.toggle_flag
          { cache := ⟨some (("flag:x", true, 60) :: eraseKV "flag:x" st₀)⟩,
            db := s₀.db ++ [({ name := "x", description := none, is_enabled := true } : FeatureFlag)] }
          false "x" false =
          (true,
           { cache := ⟨some (("flag:x", false, 60) ::
               eraseKV "flag:x" (("flag:x", true, 60) :: eraseKV "flag:x" st₀))⟩,
             db := s₀.db ++ [({ name := "x", description := none, is_enabled := false } : FeatureFlag)] }) := by
        simp [FeatureFlagService.toggle_flag, List.filter_append, hfilter,
          List.map_append, hmap, CacheLayer.set]
      rw [etog]
      constructor
      · rfl
      · simp [FeatureFlagService.get_flag_state, CacheLayer.get, lookupKV_cons_self]

/-- Claim C7: `get_flag_state` resolves cache, then persistent store
(writing a found value into the cache with a 60-second TTL), then the
caller-supplied default; and concretely, on any system that has never
seen flag "x": `get_flag_state "x" false` returns false; after
`create_flag "x" true` it returns true; and after `toggle_flag "x" false`
the very next call returns false — before any TTL expiry, because the
toggle overwrites the cache entry directly. -/
theorem c7_flag_resolution (s₀ : FlagSystem)
    (hdb : s₀.db.find? (fun f => f.name == "x") = none)
    (hc : s₀.cache.get false "flag:x" = none) :
    (∀ (s : FlagSystem) (name : String) (default b : Bool),
       s.cache.get false ("flag:" ++ name) = some b →
       FeatureFlagService.get_flag_state s false name default = (b, s)) ∧
    (∀ (s : FlagSystem) (name : String) (default : Bool) (flag : FeatureFlag),
       s.cache.get false ("flag:" ++ name) = none →
       s.db.find? (fun f => f.name == name) = some flag →
       FeatureFlagService.get_flag_state s false name default =
         (flag.is_enabled,
          { s with cache :=
              (s.cache.set false ("flag:" ++ name) flag.is_enabled 60).2 })) ∧
    (∀ (s : FlagSystem) (name : String) (default : Bool),
       s.cache.get false ("flag:" ++ name) = none →
       s.db.find? (fun f => f.name == name) = none →
       FeatureFlagService.get_flag_state s false name default = (default, s)) ∧
    ((FeatureFlagService.get_flag_state s₀ false "x" false).1 = false ∧
     (FeatureFlagService.get_flag_state
        (FeatureFlagService.create_flag s₀ false "x" none true).2
        false "x" false).1 = true ∧
     (FeatureFlagService.get_flag_state
        (FeatureFlagService.toggle_flag
          (FeatureFlagService.get_flag_state
            (FeatureFlagService.create_flag s₀ false "x" none true).2
            false "x" false).2
          false "x" false).2 false "x" false).1 = false) :=
  ⟨fun s name default b h => get_flag_state_cached s name default b h,
   fun s name default flag h1 h2 => get_flag_state_db_hit s name default flag h1 h2,
   fun s name default h1 h2 => get_flag_state_default s name default h1 h2,
   flag_kill_switch_scenario s₀ hdb hc⟩

/-- Witness for C7 on the fresh system: connected empty cache, empty
store. -/
theorem c7_flag_resolution_witness :
    (⟨⟨some []⟩, []⟩ : FlagSystem).db.find? (fun f => f.name == "x") = none ∧
    (⟨⟨some []⟩, []⟩ : FlagSystem).cache.get false "flag:x" = none ∧
    ((FeatureFlagService.get_flag_state ⟨⟨some []⟩, []⟩ false "x" false).1 = false ∧
     (FeatureFlagService.get_flag_state
        (FeatureFlagService.create_flag ⟨⟨some []⟩, []⟩ false "x" none true).2
        false "x" false).1 = true ∧
     (FeatureFlagService.get_flag_state
        (FeatureFlagService.toggle_flag
          (FeatureFlagService.get_flag_state
            (FeatureFlagService.create_flag ⟨⟨some []⟩, []⟩ false "x" none true).2
            false "x" false).2
          false "x" false).2 false "x" false).1 = false) :=
  ⟨rfl, rfl, (c7_flag_resolution ⟨⟨some []⟩, []⟩ rfl rfl).2.2.2⟩

/-- Claim C10: recording a success on a breaker that is OPEN or CLOSED
resets `failure_count` to 0 and changes nothing else — state,
`success_count`, `last_failure_time` and `half_open_calls` are all
untouched, so a success while OPEN neither closes nor half-opens the
circuit. -/
theorem c10_record_success_frame (cb : CircuitBreaker)
    (h : cb.state = CircuitState.OPEN ∨ cb.state = CircuitState.CLOSED) :
    cb.record_success = { cb with failure_count := 0 } ∧
    (cb.record_success).state = cb.state ∧
    (cb.record_success).success_count = cb.success_count ∧
    (cb.record_success).last_failure_time = cb.last_failure_time ∧
    (cb.record_success).half_open_calls = cb.half_open_calls ∧
    (cb.record_success).failure_count = 0 := by
  have hne : ¬ cb.state = CircuitState.HALF_OPEN := by
    rcases h with h | h <;> simp [h]
  have he : cb.record_success = { cb with failure_count := 0 } := by
    unfold CircuitBreaker.record_success
    rw [if_neg hne]
  rw [he]
  exact ⟨rfl, rfl, rfl, rfl, rfl, rfl⟩

/-- Witness for C10 at a concrete OPEN breaker. -/
theorem c10_record_success_frame_witness :
    (({ failure_threshold := 5, recovery_timeout := 30,
        half_open_max_calls := 3, state := CircuitState.OPEN,
        failure_count := 7, success_count := 0, last_failure_time := 4,
        half_open_calls := 0 } : CircuitBreaker).state = CircuitState.OPEN ∨
     ({ failure_threshold := 5, recovery_timeout := 30,
        half_open_max_calls := 3, state := CircuitState.OPEN,
        failure_count := 7, success_count := 0, last_failure_time := 4,
        half_open_calls := 0 } : CircuitBreaker).state = CircuitState.CLOSED) ∧
    CircuitBreaker.record_success
      { failure_threshold := 5, recovery_timeout := 30,
        half_open_max_calls := 3, state := CircuitState.OPEN,
        failure_count := 7, success_count := 0, last_failure_time := 4,
        half_open_calls := 0 } =
      { failure_threshold := 5, recovery_timeout := 30,
        half_open_max_calls := 3, state := CircuitState.OPEN,
        failure_count := 0, success_count := 0, last_failure_time := 4,
        half_open_calls := 0 } :=
  ⟨Or.inl (by decide),
   (c10_record_success_frame
     { failure_threshold := 5, recovery_timeout := 30,
       half_open_max_calls := 3, state := CircuitState.OPEN,
       failure_count := 7, success_count := 0, last_failure_time := 4,
       half_open_calls := 0 } (Or.inl (by decide))).1⟩
